import Mathlib

/-!
Verification of the Flask deepfake-detection API (`src/api.py`) against its
natural-language specification.

The embedding is a shallow, executable model of the request plumbing:
- the filesystem is a pair of lists of directory and file paths,
- Flask responses are status codes paired with a JSON or HTML body,
- the external collaborators (werkzeug's `secure_filename`, the detector's
  `predict`, and the OS-level outcome of `unlink` calls) are supplied by an
  environment record, since their code is not part of this repository,
- Python exceptions are modelled explicitly: the `try/except` block of the
  handler is encoded by case analysis, and an exception escaping the handler
  is the `Outcome.uncaught` constructor.

Python `float` values are modelled as rationals (`Rat`); only pass-through
equalities of the threshold are needed, never float arithmetic.
-/

/-- JSON values, covering the subset produced by `jsonify` in `api.py`.
Numbers are modelled as rationals. -/
inductive Json where
  | str : String → Json
  | num : Rat → Json
  | bool : Bool → Json
  | obj : List (String × Json) → Json
deriving Repr

/-- An HTTP response body: either JSON produced by `jsonify`, or an HTML page
(the static template, or a default framework error page). -/
inductive HttpBody where
  | json : Json → HttpBody
  | html : String → HttpBody
deriving Repr

/-- An HTTP response: body plus status code. -/
structure Response where
  body : HttpBody
  status : Nat
deriving Repr

/-- Outcome of running a view function: either it returns a response, or an
exception escapes it (Flask would then render a generic error page). -/
inductive Outcome where
  | response : Response → Outcome
  | uncaught : String → Outcome
deriving Repr

/-- A file in a multipart form (werkzeug `FileStorage`); only the filename is
relevant to the control flow of `api.py`. -/
structure FileStorage where
  filename : String
deriving Repr, DecidableEq

/-- An incoming HTTP request: the multipart files by field name, and the total
body size in bytes (the `Content-Length`). -/
structure Request where
  files : List (String × FileStorage)
  content_length : Nat
deriving Repr

/-- The filesystem state visible to the handler: which directories and which
regular files exist, by path. -/
structure FS where
  dirs : List String
  files : List String
deriving Repr

/-- `Path.mkdir(exist_ok=True)`: create the directory if absent. -/
def FS.mkdirExistOk (fs : FS) (d : String) : FS :=
  { fs with dirs := if d ∈ fs.dirs then fs.dirs else d :: fs.dirs }

/-- `file.save(filepath)`: afterwards the file exists at that path. -/
def FS.save (fs : FS) (p : String) : FS :=
  { fs with files := if p ∈ fs.files then fs.files else p :: fs.files }

/-- `filepath.unlink()` (when it succeeds): the file no longer exists. -/
def FS.unlink (fs : FS) (p : String) : FS :=
  { fs with files := fs.files.filter (fun q => q != p) }

/-- Environment of a `/detect` request: the behaviour of the external
collaborators of `api.py`.
- `secure_filename` is werkzeug's sanitizer (external library code);
- `predict p` is the outcome of `detector.predict(p)` on the saved scratch
  file: a JSON-serializable result, or a raised exception with message
  `str(e)`;
- `unlinkRaises k` says whether the k-th `unlink` call of this request raises
  an OS-level exception (a raising `unlink` leaves the filesystem unchanged);
  `unlinkErr k` is that exception's `str(e)` message. -/
structure Env where
  secure_filename : String → String
  predict : String → Except String Json
  unlinkRaises : Nat → Bool
  unlinkErr : Nat → String

/-- Instrumentation of one handler run: which paths were saved and which
arguments `detector.predict` was invoked on, in order. -/
structure Trace where
  saved : List String
  predictArgs : List String
deriving Repr

/-- The empty trace: no file saved, no prediction invoked. -/
def Trace.empty : Trace := { saved := [], predictArgs := [] }

/-- `jsonify(result)` with Flask's default 200 status. -/
def jsonify (j : Json) : Response := { body := HttpBody.json j, status := 200 }

/-- `jsonify({'error': msg, 'status': 'error'}), code`. -/
def errorJson (msg : String) (code : Nat) : Response :=
  { body := HttpBody.json (Json.obj [("error", Json.str msg), ("status", Json.str "error")]),
    status := code }

/-- The `/detect` view function `detect_deepfake` of `api.py` (lines 167-199):
validate the `image` field, create the `uploads` directory, save the upload
under its sanitized name, run `detector.predict` inside `try`, delete the
scratch file, and return the result; on exception, delete the scratch file if
it still exists and return a 500 error JSON. Returns the outcome, the final
filesystem, and the trace. -/
def detect_deepfake (env : Env) (req : Request) (fs : FS) : Outcome × FS × Trace :=
  match req.files.lookup "image" with
  | none => (Outcome.response (errorJson "No image provided" 400), fs, Trace.empty)
  | some file =>
    if file.filename = "" then
      (Outcome.response (errorJson "No image selected" 400), fs, Trace.empty)
    else
      let fs1 := fs.mkdirExistOk "uploads"
      let filename := env.secure_filename file.filename
      let filepath := "uploads/" ++ filename
      let fs2 := fs1.save filepath
      let tr : Trace := { saved := [filepath], predictArgs := [filepath] }
      match env.predict filepath with
      | Except.ok result =>
        if env.unlinkRaises 0 then
          -- the success-path `filepath.unlink()` raised inside `try`;
          -- control passes to `except`: the file still exists, retry unlink
          if filepath ∈ fs2.files then
            if env.unlinkRaises 1 then
              (Outcome.uncaught (env.unlinkErr 1), fs2, tr)
            else
              (Outcome.response (errorJson (env.unlinkErr 0) 500), fs2.unlink filepath, tr)
          else
            (Outcome.response (errorJson (env.unlinkErr 0) 500), fs2, tr)
        else
          (Outcome.response (jsonify result), fs2.unlink filepath, tr)
      | Except.error msg =>
        -- `except Exception as e`: clean up, then 500 with str(e)
        if filepath ∈ fs2.files then
          if env.unlinkRaises 0 then
            (Outcome.uncaught (env.unlinkErr 0), fs2, tr)
          else
            (Outcome.response (errorJson msg 500), fs2.unlink filepath, tr)
        else
          (Outcome.response (errorJson msg 500), fs2, tr)

/-- `app.config` maximum body size: `16 * 1024 * 1024` bytes (api.py line 12). -/
def MAX_CONTENT_LENGTH : Nat := 16 * 1024 * 1024

/-- Werkzeug's default error page for `413 Request Entity Too Large`
(abbreviated; only the fact that it is HTML, not JSON, matters). -/
def default413Page : String := "413 Request Entity Too Large"

/-- Flask's dispatch of a POST to `/detect`: `api.py` sets
`MAX_CONTENT_LENGTH` and registers no custom 413 handler, so a request whose
body exceeds the limit is rejected by the framework with its default HTML 413
error page before the view function can read the upload; otherwise the view
function runs. -/
def dispatch_detect (env : Env) (req : Request) (fs : FS) : Outcome × FS × Trace :=
  if req.content_length > MAX_CONTENT_LENGTH then
    (Outcome.response { body := HttpBody.html default413Page, status := 413 }, fs, Trace.empty)
  else
    detect_deepfake env req fs

/-- The loaded `DeepfakeDetector` as seen by the web layer: the `threshold`
and `device` attributes used by `/health`. -/
structure Detector where
  threshold : Rat
  device : String
deriving Repr

/-- The `/health` view function `health_check` of `api.py` (lines 201-209). -/
def health_check (detector : Detector) : Response :=
  jsonify (Json.obj
    [("status", Json.str "healthy"),
     ("model_loaded", Json.bool true),
     ("threshold", Json.num detector.threshold),
     ("device", Json.str detector.device)])

/-- Startup environment: whether the model artifact exists at the resolved
path, whether the trained-models directory exists, the `*.pth` file names in
it, and the compute device the detector would load on. -/
structure StartupEnv where
  model_path : String
  modelFileExists : Bool
  modelsDirExists : Bool
  pthFiles : List String
  device : String

/-- Result of running the module top level of `api.py`: either the process
called `sys.exit` with a code before serving, or it reached `app.run` with a
loaded detector. -/
inductive StartupOutcome where
  | exited : Nat → StartupOutcome
  | serving : Detector → StartupOutcome
deriving Repr

/-- The threshold `api.py` passes to the `DeepfakeDetector` constructor
(line 38), `0.0001`, as a rational. -/
def startupThreshold : Rat := 1 / 10000

/-- The startup sequence of `api.py` (lines 22-40 and 211-216): if the model
file is absent, print the alternatives and `sys.exit(1)` before ever reaching
`app.run`; otherwise construct the detector and serve. Returns the outcome
and the printed lines. -/
def startup (env : StartupEnv) : StartupOutcome × List String :=
  if ¬ env.modelFileExists then
    let printed :=
      ["Model file not found at: " ++ env.model_path, "Available model files:"] ++
      (if env.modelsDirExists then
        env.pthFiles.map (fun f => "   - " ++ f)
      else
        ["   No trained models directory found"])
    (StartupOutcome.exited 1, printed)
  else
    (StartupOutcome.serving { threshold := startupThreshold, device := env.device },
     ["Loading model from: " ++ env.model_path, "Model loaded successfully!"])

/-! ### Concrete fixtures used by the witness theorems -/

/-- A well-behaved environment: identity sanitizer, prediction succeeds, no
`unlink` failure. -/
def envOk : Env :=
  { secure_filename := fun s => s,
    predict := fun _ => Except.ok (Json.str "ok"),
    unlinkRaises := fun _ => false,
    unlinkErr := fun _ => "unlink error" }

/-- An environment whose `detector.predict` raises. -/
def envPredictFails : Env :=
  { secure_filename := fun s => s,
    predict := fun _ => Except.error "cannot identify image file",
    unlinkRaises := fun _ => false,
    unlinkErr := fun _ => "unlink error" }

/-- An environment where the first `unlink` call raises and the retry in the
`except` block succeeds. -/
def envUnlinkFails : Env :=
  { secure_filename := fun s => s,
    predict := fun _ => Except.ok (Json.str "ok"),
    unlinkRaises := fun k => k == 0,
    unlinkErr := fun _ => "permission denied" }

/-- A valid upload request. -/
def reqGood : Request :=
  { files := [("image", { filename := "a.png" })], content_length := 100 }

/-- A request with no `image` field. -/
def reqNoImage : Request := { files := [], content_length := 100 }

/-- A request whose `image` file has an empty filename. -/
def reqEmptyName : Request :=
  { files := [("image", { filename := "" })], content_length := 100 }

/-- A request whose body exceeds the 16 MiB limit. -/
def reqTooBig : Request :=
  { files := [("image", { filename := "a.png" })],
    content_length := MAX_CONTENT_LENGTH + 1 }

/-- An empty filesystem. -/
def fs0 : FS := { dirs := [], files := [] }

/-! ### Helper lemmas about the filesystem model -/

/-- After `save p` the file `p` exists. -/
theorem FS.mem_save (fs : FS) (p : String) : p ∈ (fs.save p).files := by
  simp only [FS.save]
  split <;> simp [*]

/-- After a successful `unlink p` the file `p` no longer exists. -/
theorem FS.not_mem_unlink (fs : FS) (p : String) : p ∉ (fs.unlink p).files := by
  simp [FS.unlink, List.mem_filter]

/-- `mkdirExistOk` makes the directory exist. -/
theorem FS.mem_mkdirExistOk (fs : FS) (d : String) : d ∈ (fs.mkdirExistOk d).dirs := by
  simp only [FS.mkdirExistOk]
  split <;> simp [*]


/-! ### Claim theorems -/

/-- C4: a POST `/detect` whose multipart form has no `image` field returns
HTTP 400 with exactly the body `\x7b"error":"No image provided","status":"error"\x7d`,
and one whose `image` file has an empty filename returns HTTP 400 with exactly
the body `\x7b"error":"No image selected","status":"error"\x7d`. -/
theorem detect_400_bodies (env : Env) (req : Request) (fs : FS) :
    (req.files.lookup "image" = none →
      detect_deepfake env req fs =
        (Outcome.response
          { body := HttpBody.json (Json.obj
              [("error", Json.str "No image provided"), ("status", Json.str "error")]),
            status := 400 }, fs, Trace.empty)) ∧
    (∀ f, req.files.lookup "image" = some f → f.filename = "" →
      detect_deepfake env req fs =
        (Outcome.response
          { body := HttpBody.json (Json.obj
              [("error", Json.str "No image selected"), ("status", Json.str "error")]),
            status := 400 }, fs, Trace.empty)) := by
  constructor
  · intro h
    simp [detect_deepfake, h, errorJson]
  · intro f h hname
    simp [detect_deepfake, h, hname, errorJson]

/-- C4 witness: the two 400 cases at concrete requests. -/
theorem detect_400_bodies_witness :
    detect_deepfake envOk reqNoImage fs0 =
      (Outcome.response
        { body := HttpBody.json (Json.obj
            [("error", Json.str "No image provided"), ("status", Json.str "error")]),
          status := 400 }, fs0, Trace.empty) ∧
    detect_deepfake envOk reqEmptyName fs0 =
      (Outcome.response
        { body := HttpBody.json (Json.obj
            [("error", Json.str "No image selected"), ("status", Json.str "error")]),
          status := 400 }, fs0, Trace.empty) :=
  ⟨(detect_400_bodies envOk reqNoImage fs0).1 rfl,
   (detect_400_bodies envOk reqEmptyName fs0).2 { filename := "" } rfl rfl⟩

/-- C8: every GET `/health` response is a 200 JSON body with
`status = "healthy"`, `model_loaded = true`, and `threshold` and `device`
equal to the loaded detector's attributes; in particular `model_loaded` is
`true` for every detector state the running process can hold. -/
theorem health_check_body (d : Detector) :
    health_check d =
      { body := HttpBody.json (Json.obj
          [("status", Json.str "healthy"),
           ("model_loaded", Json.bool true),
           ("threshold", Json.num d.threshold),
           ("device", Json.str d.device)]),
        status := 200 } := rfl

/-- C9: a request rejected with 400 (missing `image` field or empty filename)
causes no side effects: the filesystem (directories and files) is unchanged
and the trace is empty, so no file was saved and `detector.predict` was never
invoked. -/
theorem detect_400_no_side_effects (env : Env) (req : Request) (fs : FS)
    (h : req.files.lookup "image" = none ∨
      ∃ f, req.files.lookup "image" = some f ∧ f.filename = "") :
    ∃ r : Response, r.status = 400 ∧
      detect_deepfake env req fs = (Outcome.response r, fs, Trace.empty) := by
  rcases h with h | ⟨f, h, hname⟩
  · exact ⟨errorJson "No image provided" 400, rfl, by simp [detect_deepfake, h]⟩
  · exact ⟨errorJson "No image selected" 400, rfl, by simp [detect_deepfake, h, hname]⟩

/-- C9 witness: the missing-field case at a concrete request. -/
theorem detect_400_no_side_effects_witness :
    ∃ r : Response, r.status = 400 ∧
      detect_deepfake envOk reqNoImage fs0 = (Outcome.response r, fs0, Trace.empty) :=
  detect_400_no_side_effects envOk reqNoImage fs0 (Or.inl rfl)

/-- C6: a POST `/detect` whose body exceeds the 16 MiB `MAX_CONTENT_LENGTH`
is rejected by the framework before the view function runs: the filesystem is
unchanged, the trace is empty, and in particular `detector.predict` is never
invoked. -/
theorem overlimit_rejected (env : Env) (req : Request) (fs : FS)
    (h : req.content_length > MAX_CONTENT_LENGTH) :
    dispatch_detect env req fs =
      (Outcome.response { body := HttpBody.html default413Page, status := 413 },
       fs, Trace.empty) ∧
    (dispatch_detect env req fs).2.2.predictArgs = [] := by
  constructor
  · simp [dispatch_detect, h]
  · simp [dispatch_detect, h, Trace.empty]

/-- C6 witness: a concrete over-limit request. -/
theorem overlimit_rejected_witness :
    dispatch_detect envOk reqTooBig fs0 =
      (Outcome.response { body := HttpBody.html default413Page, status := 413 },
       fs0, Trace.empty) ∧
    (dispatch_detect envOk reqTooBig fs0).2.2.predictArgs = [] :=
  overlimit_rejected envOk reqTooBig fs0 (by decide)

/-- C7: when the model artifact is absent at startup, the process exits with
the non-zero status 1 before ever reaching `app.run` (so it never serves),
and when the trained-models directory exists it has printed a line for each
available `.pth` artifact. -/
theorem startup_missing_model (env : StartupEnv) (h : env.modelFileExists = false) :
    (startup env).1 = StartupOutcome.exited 1 ∧
    (∀ d, (startup env).1 ≠ StartupOutcome.serving d) ∧
    (env.modelsDirExists = true →
      ∀ f ∈ env.pthFiles, ("   - " ++ f) ∈ (startup env).2) := by
  refine ⟨by simp [startup, h], fun d => by simp [startup, h], fun hdir f hf => ?_⟩
  simp [startup, h, hdir]
  exact Or.inr (Or.inr ⟨f, hf, rfl⟩)

/-- A startup environment with the model artifact absent and one alternative
artifact in the trained-models directory. -/
def startupEnvNoModel : StartupEnv :=
  { model_path := "/m/hybrid_deepfake_detector_improved.pth",
    modelFileExists := false, modelsDirExists := true,
    pthFiles := ["other_model.pth"], device := "cpu" }

/-- C7 witness: at that concrete environment the process exits with status 1
and has printed the alternative artifact. -/
theorem startup_missing_model_witness :
    (startup startupEnvNoModel).1 = StartupOutcome.exited 1 ∧
    ("   - " ++ "other_model.pth") ∈ (startup startupEnvNoModel).2 := by
  have h := startup_missing_model startupEnvNoModel rfl
  exact ⟨h.1, h.2.2 rfl "other_model.pth" (by decide)⟩

/-- C1: for every `/detect` request that passes input validation, whenever the
handler returns (rather than letting an exception escape), the scratch file
`uploads/<sanitized name>` does not exist on the final filesystem — on the
success path and on every exception path. -/
theorem detect_scratch_deleted (env : Env) (req : Request) (fs : FS)
    (f : FileStorage) (r : Response) (fsr : FS) (tr : Trace)
    (h1 : req.files.lookup "image" = some f) (h2 : f.filename ≠ "")
    (hrun : detect_deepfake env req fs = (Outcome.response r, fsr, tr)) :
    ("uploads/" ++ env.secure_filename f.filename) ∉ fsr.files := by
  simp only [detect_deepfake, h1, if_neg h2] at hrun
  split at hrun <;> (try split at hrun) <;> (try split at hrun) <;>
    (try split at hrun) <;> simp only [Prod.mk.injEq] at hrun
  all_goals obtain ⟨hro, hfs, htr⟩ := hrun
  all_goals
    first
      | exact Outcome.noConfusion hro
      | exact hro.elim
      | (subst hfs; simp_all [FS.unlink, FS.save, List.mem_filter])

/-- C1 witness: a concrete valid request against an empty filesystem. -/
theorem detect_scratch_deleted_witness :
    ("uploads/" ++ envOk.secure_filename "a.png") ∉ (FS.mk ["uploads"] []).files :=
  detect_scratch_deleted envOk reqGood fs0 { filename := "a.png" }
    (jsonify (Json.str "ok")) (FS.mk ["uploads"] [])
    { saved := ["uploads/a.png"], predictArgs := ["uploads/a.png"] }
    rfl (by decide) rfl

/-- C2: when `detector.predict` raises, the handler catches the exception,
deletes the scratch file, and returns HTTP 500 with a JSON body carrying the
exception message under `error` and `"status": "error"`; the exception does
not escape (assuming the cleanup `unlink` itself does not raise). -/
theorem detect_predict_exception (env : Env) (req : Request) (fs : FS)
    (f : FileStorage) (msg : String)
    (h1 : req.files.lookup "image" = some f) (h2 : f.filename ≠ "")
    (h3 : env.predict ("uploads/" ++ env.secure_filename f.filename) = Except.error msg)
    (h4 : env.unlinkRaises 0 = false) :
    ∃ fsr tr,
      detect_deepfake env req fs =
        (Outcome.response
          { body := HttpBody.json (Json.obj
              [("error", Json.str msg), ("status", Json.str "error")]),
            status := 500 }, fsr, tr) ∧
      ("uploads/" ++ env.secure_filename f.filename) ∉ fsr.files := by
  refine ⟨((fs.mkdirExistOk "uploads").save ("uploads/" ++ env.secure_filename f.filename)).unlink
      ("uploads/" ++ env.secure_filename f.filename),
    { saved := ["uploads/" ++ env.secure_filename f.filename],
      predictArgs := ["uploads/" ++ env.secure_filename f.filename] },
    ?_, FS.not_mem_unlink _ _⟩
  simp only [detect_deepfake, h1, if_neg h2, h3]
  rw [if_pos (FS.mem_save _ _), if_neg (by simp [h4])]
  rfl

/-- C2 witness: a concrete request whose prediction raises. -/
theorem detect_predict_exception_witness :
    ∃ fsr tr,
      detect_deepfake envPredictFails reqGood fs0 =
        (Outcome.response
          { body := HttpBody.json (Json.obj
              [("error", Json.str "cannot identify image file"),
               ("status", Json.str "error")]),
            status := 500 }, fsr, tr) ∧
      ("uploads/" ++ envPredictFails.secure_filename "a.png") ∉ fsr.files :=
  detect_predict_exception envPredictFails reqGood fs0 { filename := "a.png" }
    "cannot identify image file" rfl (by decide) rfl rfl

/-- C3: on a valid upload whose prediction succeeds and whose scratch-file
deletion succeeds, the handler saves the upload under the sanitized name
inside `uploads`, invokes `detector.predict` exactly once on exactly that
path, deletes the file, and returns the detector's result as JSON with
status 200. -/
theorem detect_success (env : Env) (req : Request) (fs : FS)
    (f : FileStorage) (result : Json)
    (h1 : req.files.lookup "image" = some f) (h2 : f.filename ≠ "")
    (h3 : env.predict ("uploads/" ++ env.secure_filename f.filename) = Except.ok result)
    (h4 : env.unlinkRaises 0 = false) :
    detect_deepfake env req fs =
      (Outcome.response { body := HttpBody.json result, status := 200 },
       ((fs.mkdirExistOk "uploads").save ("uploads/" ++ env.secure_filename f.filename)).unlink
         ("uploads/" ++ env.secure_filename f.filename),
       { saved := ["uploads/" ++ env.secure_filename f.filename],
         predictArgs := ["uploads/" ++ env.secure_filename f.filename] }) ∧
    ("uploads/" ++ env.secure_filename f.filename) ∉ (detect_deepfake env req fs).2.1.files ∧
    "uploads" ∈ (detect_deepfake env req fs).2.1.dirs := by
  have hmain : detect_deepfake env req fs =
      (Outcome.response { body := HttpBody.json result, status := 200 },
       ((fs.mkdirExistOk "uploads").save ("uploads/" ++ env.secure_filename f.filename)).unlink
         ("uploads/" ++ env.secure_filename f.filename),
       { saved := ["uploads/" ++ env.secure_filename f.filename],
         predictArgs := ["uploads/" ++ env.secure_filename f.filename] }) := by
    simp only [detect_deepfake, h1, if_neg h2, h3]
    rw [if_neg (by simp [h4])]
    rfl
  refine ⟨hmain, ?_, ?_⟩
  · rw [hmain]
    exact FS.not_mem_unlink _ _
  · rw [hmain]
    simp only [FS.unlink, FS.save]
    exact FS.mem_mkdirExistOk _ _

/-- C3 witness: the success path at a concrete request. -/
theorem detect_success_witness :
    detect_deepfake envOk reqGood fs0 =
      (Outcome.response { body := HttpBody.json (Json.str "ok"), status := 200 },
       ((fs0.mkdirExistOk "uploads").save ("uploads/" ++ envOk.secure_filename "a.png")).unlink
         ("uploads/" ++ envOk.secure_filename "a.png"),
       { saved := ["uploads/" ++ envOk.secure_filename "a.png"],
         predictArgs := ["uploads/" ++ envOk.secure_filename "a.png"] }) ∧
    ("uploads/" ++ envOk.secure_filename "a.png") ∉ (detect_deepfake envOk reqGood fs0).2.1.files ∧
    "uploads" ∈ (detect_deepfake envOk reqGood fs0).2.1.dirs :=
  detect_success envOk reqGood fs0 { filename := "a.png" } (Json.str "ok")
    rfl (by decide) rfl rfl

/-- C10: when the prediction succeeds but the success-path deletion of the
scratch file raises, the handler returns HTTP 500 with an error JSON body
(carrying the unlink exception's message) rather than the successful
prediction; and in general a 200 response from the handler implies the
success-path deletion did not raise. -/
theorem detect_unlink_exception (env : Env) (req : Request) (fs : FS)
    (f : FileStorage) (result : Json)
    (h1 : req.files.lookup "image" = some f) (h2 : f.filename ≠ "")
    (h3 : env.predict ("uploads/" ++ env.secure_filename f.filename) = Except.ok result)
    (h4 : env.unlinkRaises 0 = true) (h5 : env.unlinkRaises 1 = false) :
    (∃ fsr tr,
      detect_deepfake env req fs =
        (Outcome.response
          { body := HttpBody.json (Json.obj
              [("error", Json.str (env.unlinkErr 0)), ("status", Json.str "error")]),
            status := 500 }, fsr, tr) ∧
      ("uploads/" ++ env.secure_filename f.filename) ∉ fsr.files) ∧
    (∀ (env2 : Env) (req2 : Request) (fs2 : FS) (r : Response) (fsr2 : FS) (tr2 : Trace),
      detect_deepfake env2 req2 fs2 = (Outcome.response r, fsr2, tr2) →
      r.status = 200 → env2.unlinkRaises 0 = false) := by
  constructor
  · refine ⟨((fs.mkdirExistOk "uploads").save ("uploads/" ++ env.secure_filename f.filename)).unlink
        ("uploads/" ++ env.secure_filename f.filename),
      { saved := ["uploads/" ++ env.secure_filename f.filename],
        predictArgs := ["uploads/" ++ env.secure_filename f.filename] },
      ?_, FS.not_mem_unlink _ _⟩
    simp only [detect_deepfake, h1, if_neg h2, h3]
    rw [if_pos h4, if_pos (FS.mem_save _ _), if_neg (by simp [h5])]
    rfl
  · intro env2 req2 fs2 r fsr2 tr2 hrun hst
    cases hb : env2.unlinkRaises 0 with
    | false => rfl
    | true =>
      exfalso
      simp only [detect_deepfake] at hrun
      split at hrun <;> (try split at hrun) <;> (try split at hrun) <;>
        (try split at hrun) <;> (try split at hrun) <;>
        simp only [Prod.mk.injEq] at hrun
      all_goals obtain ⟨hro, hfs, htr⟩ := hrun
      all_goals
        first
          | exact Outcome.noConfusion hro
          | exact hro.elim
          | (injection hro with hro2; subst hro2; simp_all [errorJson, jsonify])

/-- C10 witness: a concrete request where the first unlink raises and the
retry succeeds. -/
theorem detect_unlink_exception_witness :
    ∃ fsr tr,
      detect_deepfake envUnlinkFails reqGood fs0 =
        (Outcome.response
          { body := HttpBody.json (Json.obj
              [("error", Json.str "permission denied"), ("status", Json.str "error")]),
            status := 500 }, fsr, tr) ∧
      ("uploads/" ++ envUnlinkFails.secure_filename "a.png") ∉ fsr.files :=
  (detect_unlink_exception envUnlinkFails reqGood fs0 { filename := "a.png" }
    (Json.str "ok") rfl (by decide) rfl rfl rfl).1

/-- C5 counterexample: an over-limit request is answered by the framework's
default 413 error page, whose body is HTML — not JSON, so it carries no
`status` discriminator field; the claim that every error is surfaced as JSON,
including rejection of over-limit bodies, fails at this input. -/
theorem overlimit_response_not_json :
    (dispatch_detect envOk reqTooBig fs0).1 =
      Outcome.response { body := HttpBody.html default413Page, status := 413 } ∧
    (∀ j : Json, HttpBody.html default413Page ≠ HttpBody.json j) :=
  ⟨rfl, fun _ h => HttpBody.noConfusion h⟩

/-- C5 (amended): every error response returned by the `detect_deepfake` view
function itself (any returned status other than 200) is JSON of the shape
`\x7b"error": msg, "status": "error"\x7d`; the framework-level 413 rejection is the
one error response that is not. -/
theorem detect_errors_are_json (env : Env) (req : Request) (fs : FS)
    (r : Response) (fsr : FS) (tr : Trace)
    (hrun : detect_deepfake env req fs = (Outcome.response r, fsr, tr))
    (hst : r.status ≠ 200) :
    ∃ msg, r.body = HttpBody.json (Json.obj
      [("error", Json.str msg), ("status", Json.str "error")]) := by
  simp only [detect_deepfake] at hrun
  split at hrun <;> (try split at hrun) <;> (try split at hrun) <;>
    (try split at hrun) <;> (try split at hrun) <;> (try split at hrun) <;>
    simp only [Prod.mk.injEq] at hrun
  all_goals obtain ⟨hro, hfs, htr⟩ := hrun
  all_goals
    first
      | exact Outcome.noConfusion hro
      | exact hro.elim
      | (injection hro with hro2; subst hro2;
         first
           | exact ⟨_, rfl⟩
           | simp_all [jsonify, errorJson])

/-- C5 witness: the missing-field 400 response at a concrete request. -/
theorem detect_errors_are_json_witness :
    ∃ msg, (errorJson "No image provided" 400).body = HttpBody.json (Json.obj
      [("error", Json.str msg), ("status", Json.str "error")]) :=
  detect_errors_are_json envOk reqNoImage fs0 (errorJson "No image provided" 400)
    fs0 Trace.empty rfl (by decide)
